import Mathlib

/-!
Shallow embedding of `src/legio/legio.cpp` (PRat distortion, Legio port):
the per-block audio callback (control mapping, modal dispatch, engine
parameter dispatch) and the main status loop (boot state machine, LEDs).

Audio samples and control values are modelled as rationals.  The two DSP
engines (`PRatDist`, `NoiseGate`) and the hardware layer are external
collaborators: their per-block behaviour enters as an oracle
(`EngineResponse`), and every call the callback makes to them is recorded
in an event trace, so that claims about call patterns and dispatched
values can be stated and proved.
-/

namespace Prat

/-- `fmax`: the larger of two rationals (computable, if-based). -/
def fmax (a b : ℚ) : ℚ := if a < b then b else a

/-- `fmin`: the smaller of two rationals (computable, if-based). -/
def fmin (a b : ℚ) : ℚ := if b < a then b else a

/-- `fclamp` from daisysp: clamp `x` into `[lo, hi]`. -/
def fclamp (x lo hi : ℚ) : ℚ := fmin (fmax x lo) hi

/-- C++ integer division truncates toward zero; used for
`hw.encoder.Increment() / 16` where `Encoder::Increment()` returns an
integer tick count (spec data model: `encoderDelta ∈ ℤ`). -/
def cppDiv (a b : Int) : Int := Int.tdiv a b

/-- Modelled from the spec: `GrabValue` ("Reconciled Control", header
`GrabValue.h` is not among the sources): a caught scalar
`{heldValue, tracking}`.  `Update raw` tracks `raw` when tracking,
otherwise stays pinned at `heldValue` until `raw` comes within a small
catch tolerance, then starts tracking; `Lock` keeps `heldValue` and
clears tracking; `Get` returns `heldValue`. -/
structure GrabValue where
  heldValue : ℚ
  tracking : Bool
deriving DecidableEq

/-- Catch tolerance ("small tolerance" in the spec; exact value is a
design constant of the missing header). -/
def catchTol : ℚ := 1/100

/-- `GrabValue<float> g = v` initialisation. -/
def GrabValue.init (v : ℚ) : GrabValue := ⟨v, false⟩

/-- `GrabValue::Update(raw)`: active-source update with catch. -/
def GrabValue.Update (g : GrabValue) (raw : ℚ) : GrabValue :=
  if g.tracking then ⟨raw, true⟩
  else if |raw - g.heldValue| ≤ catchTol then ⟨raw, true⟩
  else g

/-- `GrabValue::Lock()`: keep the held value, require a re-catch. -/
def GrabValue.Lock (g : GrabValue) : GrabValue := ⟨g.heldValue, false⟩

/-- `GrabValue::Get()`. -/
def GrabValue.Get (g : GrabValue) : ℚ := g.heldValue

/-- 3-position switch positions (libDaisy `Switch3`). -/
inductive Switch3 where
  | POS_UP
  | POS_CENTER
  | POS_DOWN
deriving DecidableEq

/-- `PRatDist` parameter names. -/
inductive DistParam where
  | P_GAIN
  | P_FILTER
  | P_LEVEL
  | P_DRYWET
  | P_SILED
  | P_HARD
  | P_TIGHT
  | P_RUETZ
  | P_BYPASS
deriving DecidableEq

/-- `NoiseGate` parameter names. -/
inductive NgParam where
  | P_THRESHOLD
  | P_RELEASE
  | P_BYPASS
  | P_DETECTOR_GAIN
  | P_REDUCTION
  | P_SLOPE
deriving DecidableEq

/-- The four reconciled controls (static `GrabValue` locals). -/
inductive CtrlId where
  | cvFilter
  | cvMix
  | ngThreshold
  | ngRelease
deriving DecidableEq

/-- The two status LEDs. -/
inductive LedId where
  | LED_LEFT
  | LED_RIGHT
deriving DecidableEq

/-- One observable call made by the control core on a collaborator.
`ngProcess` records the three buffers the gate reads, in the call's
argument order `(OUT_L, OUT_R, IN_L)`; per the source comment
("noise gate uses left input for volume detection") the third one is
the level-detection (sidechain) input. -/
inductive Event where
  | ctrlUpdate (c : CtrlId) (raw : ℚ)
  | ctrlLock (c : CtrlId)
  | distSet (p : DistParam) (v : ℚ)
  | distUpdate
  | distProcess (inL inR : List ℚ)
  | ngSet (p : NgParam) (v : ℚ)
  | ngUpdate
  | ngProcess (procL procR sidechain : List ℚ)
  | setLed (led : LedId) (r g b : ℚ)
  | updateLeds
deriving DecidableEq

/-- The audio callback's persistent (static local) state. -/
structure CallbackState where
  first : Bool
  cur_gain : ℚ
  cur_level : ℚ
  cv_filter : GrabValue
  cv_mix : GrabValue
  ng_threshold : GrabValue
  ng_release : GrabValue
deriving DecidableEq

/-- Initial static-local values of `AudioCallback`
(`first = true`, gain/level mid position, thresholds -45db / 100ms). -/
def CallbackState.init : CallbackState :=
  ⟨true, 1/2, 1/2, GrabValue.init 0, GrabValue.init 0,
   GrabValue.init (2/5), GrabValue.init (1/2)⟩

/-- Per-block hardware snapshot (external hardware layer). -/
structure BlockInput where
  inL : List ℚ
  inR : List ℚ
  encoderPressed : Bool
  encoderIncrement : Int
  knobTop : ℚ
  knobBottom : ℚ
  pitchCV : ℚ
  swClip : Switch3
  swMod : Switch3
  gateActive : Bool
deriving DecidableEq

/-- Modelled from the spec: engine internals are out of scope, so the
distortion and gate engines' per-block behaviour (their `Process`
outputs and the `GetSaturation` / `GetEnvelope` readings) is supplied
as an opaque-to-the-core oracle value. -/
structure EngineResponse where
  distOutL : List ℚ
  distOutR : List ℚ
  saturation : ℚ
  ngOutL : List ℚ
  ngOutR : List ℚ
  envelope : ℚ
deriving DecidableEq

/-- Result of one `AudioCallback` invocation: new static state, new
telemetry globals, output buffers, the current shift flag, and the
trace of collaborator calls. -/
structure AudioResult where
  state : CallbackState
  satVal : ℚ
  envVal : ℚ
  outL : List ℚ
  outR : List ℚ
  shift : Bool
  trace : List Event
deriving DecidableEq

/-- Control update/lock phase (lines 68-80): the active pair is updated
from the knobs, the other pair is locked. Returns the four new controls
and the call events. -/
def ctrlStep (shift : Bool) (s : CallbackState) (cv0 cv1 : ℚ) :
    (GrabValue × GrabValue × GrabValue × GrabValue) × List Event :=
  if !shift then
    ((s.cv_filter.Update cv0, s.cv_mix.Update cv1,
      s.ng_threshold.Lock, s.ng_release.Lock),
     [Event.ctrlUpdate CtrlId.cvFilter cv0, Event.ctrlUpdate CtrlId.cvMix cv1,
      Event.ctrlLock CtrlId.ngThreshold, Event.ctrlLock CtrlId.ngRelease])
  else
    ((s.cv_filter.Lock, s.cv_mix.Lock,
      s.ng_threshold.Update cv0, s.ng_release.Update cv1),
     [Event.ctrlLock CtrlId.cvFilter, Event.ctrlLock CtrlId.cvMix,
      Event.ctrlUpdate CtrlId.ngThreshold cv0, Event.ctrlUpdate CtrlId.ngRelease cv1])

/-- Distortion parameter dispatch (lines 104-119), including the
hard-mode mix routing and the final `dist.Update()`. -/
def distDispatch (gain filter level mix hard tight ruetz bypass : ℚ) : List Event :=
  [Event.distSet DistParam.P_GAIN gain,
   Event.distSet DistParam.P_FILTER filter,
   Event.distSet DistParam.P_LEVEL level]
  ++ (if hard ≥ 1/2 then
        [Event.distSet DistParam.P_DRYWET 1, Event.distSet DistParam.P_SILED mix]
      else
        [Event.distSet DistParam.P_DRYWET mix])
  ++ [Event.distSet DistParam.P_HARD hard,
      Event.distSet DistParam.P_TIGHT tight,
      Event.distSet DistParam.P_RUETZ ruetz,
      Event.distSet DistParam.P_BYPASS bypass,
      Event.distUpdate]

/-- Gate parameter dispatch (lines 122-127): threshold, release, the
below-0.05 bypass rule, and `ng.Update()`. -/
def ngDispatch (t r : ℚ) : List Event :=
  [Event.ngSet NgParam.P_THRESHOLD t,
   Event.ngSet NgParam.P_RELEASE r,
   Event.ngSet NgParam.P_BYPASS (if t < 1/20 then 1 else 0),
   Event.ngUpdate]

/-- One invocation of `AudioCallback` (lines 39-140). `inited` is the
global `initialized` flag; `sat`/`env` the telemetry globals on entry.
When not initialized the callback is a verbatim stereo pass-through
(`Utils::Copy`, modelled from the spec as output = input) with no
collaborator calls. -/
def AudioCallback (inited : Bool) (sat env : ℚ) (s : CallbackState)
    (inp : BlockInput) (eng : EngineResponse) : AudioResult :=
  if !inited then
    ⟨s, sat, env, inp.inL, inp.inR, false, []⟩
  else
    let shift := inp.encoderPressed && !s.first
    let cv0 := inp.knobTop
    let cv1 := inp.knobBottom
    let cs := ctrlStep shift s cv0 cv1
    let cv_filter := cs.1.1
    let cv_mix := cs.1.2.1
    let ng_threshold := cs.1.2.2.1
    let ng_release := cs.1.2.2.2
    let encInc : ℚ := (cppDiv inp.encoderIncrement 16 : Int)
    let cur_level := if shift then fclamp (s.cur_level + encInc) 0 1 else s.cur_level
    let cur_gain := if shift then s.cur_gain else fclamp (s.cur_gain + encInc) 0 1
    let gain := fclamp (cur_gain + inp.pitchCV) 0 1
    let filter := fclamp cv_filter.Get 0 1
    let level := fclamp cur_level 0 1
    let mix := fclamp cv_mix.Get 0 1
    let hard : ℚ := if inp.swClip = Switch3.POS_CENTER ∨ inp.gateActive then 1 else 0
    let bypass : ℚ := if inp.swClip = Switch3.POS_DOWN then 1 else 0
    let ruetz : ℚ := if inp.swMod = Switch3.POS_CENTER then 1 else 0
    let tight : ℚ := if inp.swMod = Switch3.POS_DOWN then 1 else 0
    let ngEvents := if s.first || shift then ngDispatch ng_threshold.Get ng_release.Get else []
    let trace := (cs.2
      ++ distDispatch gain filter level mix hard tight ruetz bypass
      ++ ngEvents)
      ++ [Event.distProcess inp.inL inp.inR,
          Event.ngProcess eng.distOutL eng.distOutR inp.inL]
    ⟨⟨false, cur_gain, cur_level, cv_filter, cv_mix, ng_threshold, ng_release⟩,
     fclamp (eng.saturation / 5) 0 1,
     fclamp (eng.envelope * (5/2)) 0 1,
     eng.ngOutL, eng.ngOutR, shift, trace⟩

/-- Boot/status state machine states (spec: `BLINKING → READY`). -/
inductive BootState where
  | BLINKING
  | READY
deriving DecidableEq

/-- Persistent state of `main`'s status loop: its own static `first`
flag and the global `initialized` flag. -/
structure MainState where
  first : Bool
  inited : Bool
deriving DecidableEq

/-- State at entry of the `while(1)` loop. -/
def MainState.start : MainState := ⟨true, false⟩

/-- The spec's boot state as a function of the `initialized` flag. -/
def bootState (s : MainState) : BootState :=
  if s.inited then BootState.READY else BootState.BLINKING

/-- One iteration of the `while(1)` status loop (lines 164-182), at
monotonic millisecond time `now` with startup time `boottime`
(`System::GetNow() - boottime` modelled as truncated Nat subtraction).
`sat`/`env` are the telemetry globals read by the loop. -/
def MainLoopStep (boottime now : ℕ) (s : MainState) (sat env : ℚ) :
    MainState × List Event :=
  if !s.inited then
    if now - boottime < 1000 then
      if s.first then
        (⟨false, s.inited⟩,
         [Event.setLed LedId.LED_LEFT 1 0 0,
          Event.setLed LedId.LED_RIGHT 1 0 1,
          Event.updateLeds])
      else (s, [])
    else (⟨s.first, true⟩, [])
  else
    (s, [Event.setLed LedId.LED_LEFT 0 env 0,
         Event.setLed LedId.LED_RIGHT sat 0 0,
         Event.updateLeds])

/-- Run a sequence of post-boot blocks (`initialized = true`) from
callback state `s` and telemetry `sat`, `env`, collecting each block's
result. -/
def runAux (s : CallbackState) (sat env : ℚ) :
    List (BlockInput × EngineResponse) → List AudioResult
  | [] => []
  | (inp, eng) :: rest =>
    let r := AudioCallback true sat env s inp eng
    r :: runAux r.state r.satVal r.envVal rest

/-- Run from the initial static state: element `0` is the first
processed block. -/
def run (blocks : List (BlockInput × EngineResponse)) : List AudioResult :=
  runAux CallbackState.init 0 0 blocks

/-- Whether block `i` of a run re-parameterized the gate engine
(invoked `ng.Update()`). -/
def firesAt (blocks : List (BlockInput × EngineResponse)) (i : ℕ) : Bool :=
  ((run blocks).get? i).elim false (fun r => decide (Event.ngUpdate ∈ r.trace))

/-- The shift state of block `i` of a run. -/
def shiftAt (blocks : List (BlockInput × EngineResponse)) (i : ℕ) : Bool :=
  ((run blocks).get? i).elim false (fun r => r.shift)

/-- The spec's gate-cadence sentence, formalised over finite runs:
re-parameterization on block 0 and exactly on shift-state changes. -/
def gateCadenceClaim (blocks : List (BlockInput × EngineResponse)) : Prop :=
  ∀ i < (run blocks).length,
    (firesAt blocks i = true ↔ (i = 0 ∨ shiftAt blocks i ≠ shiftAt blocks (i - 1)))

/-- A neutral hardware snapshot. -/
def sampleInp : BlockInput :=
  ⟨[0], [0], false, 0, 0, 0, 0, Switch3.POS_UP, Switch3.POS_UP, false⟩

/-- A neutral snapshot with the encoder held down. -/
def pressedInp : BlockInput :=
  ⟨[0], [0], true, 0, 0, 0, 0, Switch3.POS_UP, Switch3.POS_UP, false⟩

/-- A neutral snapshot with one clockwise encoder tick. -/
def tickInp : BlockInput :=
  ⟨[0], [0], false, 1, 0, 0, 0, Switch3.POS_UP, Switch3.POS_UP, false⟩

/-- One clockwise encoder tick with the encoder held (shift). -/
def tickPressedInp : BlockInput :=
  ⟨[0], [0], true, 1, 0, 0, 0, Switch3.POS_UP, Switch3.POS_UP, false⟩

/-- A neutral snapshot with the clip switch in its center position. -/
def centerInp : BlockInput :=
  ⟨[0], [0], false, 0, 0, 0, 0, Switch3.POS_CENTER, Switch3.POS_UP, false⟩

/-- A neutral engine-response oracle. -/
def sampleEng : EngineResponse := ⟨[0], [0], 0, [0], [0], 0⟩

/-- Callback state after the first block (defaults, `first` cleared). -/
def steadyState : CallbackState :=
  ⟨false, 1/2, 1/2, GrabValue.init 0, GrabValue.init 0,
   GrabValue.init (2/5), GrabValue.init (1/2)⟩

/-- Callback state with the threshold control at 0.04 (first block
pending, all other statics at their defaults). -/
def st004 : CallbackState :=
  ⟨true, 1/2, 1/2, GrabValue.init 0, GrabValue.init 0,
   GrabValue.init (1/25), GrabValue.init (1/2)⟩

/-- Callback state with the threshold control at 0.06. -/
def st006 : CallbackState :=
  ⟨true, 1/2, 1/2, GrabValue.init 0, GrabValue.init 0,
   GrabValue.init (3/50), GrabValue.init (1/2)⟩

/-- Three blocks: neutral, then the encoder held for two consecutive
blocks (shift stays true across blocks 1 and 2). -/
def cadBlocks : List (BlockInput × EngineResponse) :=
  [(sampleInp, sampleEng), (pressedInp, sampleEng), (pressedInp, sampleEng)]

/-! ## Helper lemmas -/

/-- Before initialization the callback is a pure pass-through. -/
lemma AudioCallback_passthru (sat env : ℚ) (s : CallbackState)
    (inp : BlockInput) (eng : EngineResponse) :
    AudioCallback false sat env s inp eng
      = ⟨s, sat, env, inp.inL, inp.inR, false, []⟩ := rfl

/-- A processed block always clears the `first` flag. -/
lemma AudioCallback_first (sat env : ℚ) (s : CallbackState)
    (inp : BlockInput) (eng : EngineResponse) :
    (AudioCallback true sat env s inp eng).state.first = false := by
  simp [AudioCallback]

/-- The shift flag of a processed block. -/
lemma AudioCallback_shift (sat env : ℚ) (s : CallbackState)
    (inp : BlockInput) (eng : EngineResponse) :
    (AudioCallback true sat env s inp eng).shift
      = (inp.encoderPressed && !s.first) := by
  simp [AudioCallback]

/-- Everything in a distortion dispatch is a `distSet` or `distUpdate`. -/
lemma ngUpdate_not_mem_distDispatch (g f l m h t r b : ℚ) :
    Event.ngUpdate ∉ distDispatch g f l m h t r b := by
  unfold distDispatch
  split <;> simp

/-- Gate `SetParam` calls do not occur in a distortion dispatch. -/
lemma ngSet_not_mem_distDispatch (p : NgParam) (v : ℚ) (g f l m h t r b : ℚ) :
    Event.ngSet p v ∉ distDispatch g f l m h t r b := by
  unfold distDispatch
  split <;> simp

/-- Control-call events do not occur in a distortion dispatch. -/
lemma ctrlUpdate_not_mem_distDispatch (c : CtrlId) (w : ℚ) (g f l m h t r b : ℚ) :
    Event.ctrlUpdate c w ∉ distDispatch g f l m h t r b := by
  unfold distDispatch
  split <;> simp

/-- Control-lock events do not occur in a distortion dispatch. -/
lemma ctrlLock_not_mem_distDispatch (c : CtrlId) (g f l m h t r b : ℚ) :
    Event.ctrlLock c ∉ distDispatch g f l m h t r b := by
  unfold distDispatch
  split <;> simp

/-- The `hard` flag dispatched to the distortion engine. -/
lemma distSet_HARD_mem_distDispatch (v g f l m h t r b : ℚ) :
    Event.distSet DistParam.P_HARD v ∈ distDispatch g f l m h t r b ↔ v = h := by
  unfold distDispatch
  split <;> simp

/-- The `bypass` flag dispatched to the distortion engine. -/
lemma distSet_BYPASS_mem_distDispatch (v g f l m h t r b : ℚ) :
    Event.distSet DistParam.P_BYPASS v ∈ distDispatch g f l m h t r b ↔ v = b := by
  unfold distDispatch
  split <;> simp

/-- The `ruetz` flag dispatched to the distortion engine. -/
lemma distSet_RUETZ_mem_distDispatch (v g f l m h t r b : ℚ) :
    Event.distSet DistParam.P_RUETZ v ∈ distDispatch g f l m h t r b ↔ v = r := by
  unfold distDispatch
  split <;> simp

/-- The `tight` flag dispatched to the distortion engine. -/
lemma distSet_TIGHT_mem_distDispatch (v g f l m h t r b : ℚ) :
    Event.distSet DistParam.P_TIGHT v ∈ distDispatch g f l m h t r b ↔ v = t := by
  unfold distDispatch
  split <;> simp

/-- A processed block calls `ng.Update()` exactly when `first || shift`. -/
lemma AudioCallback_fires (sat env : ℚ) (s : CallbackState)
    (inp : BlockInput) (eng : EngineResponse) :
    decide (Event.ngUpdate ∈ (AudioCallback true sat env s inp eng).trace)
      = (s.first || (AudioCallback true sat env s inp eng).shift) := by
  simp only [AudioCallback, ctrlStep, ngDispatch]
  cases hf : s.first <;> cases hp : inp.encoderPressed <;>
    simp [List.mem_append, ngUpdate_not_mem_distDispatch]

/-! ## Claim theorems -/

/-- C10: on the very first processed block, regardless of the knob,
encoder and switch readings, the gate engine is parameterized with the
built-in defaults threshold = 0.4 and release = 0.5, hence bypass = 0,
and shift is forced false on that block. -/
theorem C10_first_block_gate_defaults (sat env : ℚ) (inp : BlockInput)
    (eng : EngineResponse) :
    Event.ngSet NgParam.P_THRESHOLD (2/5)
        ∈ (AudioCallback true sat env CallbackState.init inp eng).trace
    ∧ Event.ngSet NgParam.P_RELEASE (1/2)
        ∈ (AudioCallback true sat env CallbackState.init inp eng).trace
    ∧ Event.ngSet NgParam.P_BYPASS 0
        ∈ (AudioCallback true sat env CallbackState.init inp eng).trace
    ∧ Event.ngUpdate ∈ (AudioCallback true sat env CallbackState.init inp eng).trace
    ∧ (AudioCallback true sat env CallbackState.init inp eng).shift = false := by
  simp only [AudioCallback, ctrlStep, ngDispatch, CallbackState.init, GrabValue.init,
    GrabValue.Lock, GrabValue.Get]
  norm_num

/-- C9: after each processed block the exported telemetry is
`satVal = clamp(saturation / 5, 0, 1)` and
`envVal = clamp(envelope * 2.5, 0, 1)`; a reported saturation of 5
maps to 1 and a reported envelope of 0.5 maps to 1. -/
theorem C9_telemetry_scaling (sat env : ℚ) (s : CallbackState)
    (inp : BlockInput) (eng : EngineResponse) :
    (AudioCallback true sat env s inp eng).satVal
        = fclamp (eng.saturation / 5) 0 1
    ∧ (AudioCallback true sat env s inp eng).envVal
        = fclamp (eng.envelope * (5/2)) 0 1
    ∧ fclamp ((5 : ℚ) / 5) 0 1 = 1
    ∧ fclamp ((1 : ℚ)/2 * (5/2)) 0 1 = 1 := by
  refine ⟨by simp [AudioCallback], by simp [AudioCallback], ?_, ?_⟩ <;>
    norm_num [fclamp, fmin, fmax]

/-- C2: on every processed block the distortion engine processes the
stereo input block, then the gate engine is called on the distortion's
output with the original pre-distortion left input channel as the
level-detection argument, and the block's output is the gate's
output. -/
theorem C2_sidechain_processing (sat env : ℚ) (s : CallbackState)
    (inp : BlockInput) (eng : EngineResponse) :
    (∃ pre, (AudioCallback true sat env s inp eng).trace
        = pre ++ [Event.distProcess inp.inL inp.inR,
                  Event.ngProcess eng.distOutL eng.distOutR inp.inL])
    ∧ (AudioCallback true sat env s inp eng).outL = eng.ngOutL
    ∧ (AudioCallback true sat env s inp eng).outR = eng.ngOutR := by
  exact ⟨⟨_, rfl⟩, by simp [AudioCallback], by simp [AudioCallback]⟩

/-- C5: for every processed block the dispatched mode flags satisfy the
decoding truth table (hard = 1 iff clip switch center or gate active;
bypass = 1 iff clip switch down; ruetz = 1 iff mod switch center;
tight = 1 iff mod switch down; 0 otherwise), stated as: the value
dispatched for each flag is exactly the truth-table value. -/
theorem C5_mode_decoder_truth_table (sat env : ℚ) (s : CallbackState)
    (inp : BlockInput) (eng : EngineResponse) :
    (∀ v : ℚ, Event.distSet DistParam.P_HARD v
        ∈ (AudioCallback true sat env s inp eng).trace
      ↔ v = (if inp.swClip = Switch3.POS_CENTER ∨ inp.gateActive = true then 1 else 0))
    ∧ (∀ v : ℚ, Event.distSet DistParam.P_BYPASS v
        ∈ (AudioCallback true sat env s inp eng).trace
      ↔ v = (if inp.swClip = Switch3.POS_DOWN then 1 else 0))
    ∧ (∀ v : ℚ, Event.distSet DistParam.P_RUETZ v
        ∈ (AudioCallback true sat env s inp eng).trace
      ↔ v = (if inp.swMod = Switch3.POS_CENTER then 1 else 0))
    ∧ (∀ v : ℚ, Event.distSet DistParam.P_TIGHT v
        ∈ (AudioCallback true sat env s inp eng).trace
      ↔ v = (if inp.swMod = Switch3.POS_DOWN then 1 else 0)) := by
  simp only [AudioCallback]
  cases hf : s.first <;> cases hp : inp.encoderPressed <;>
    simp [ctrlStep, ngDispatch, List.mem_append,
      distSet_HARD_mem_distDispatch, distSet_BYPASS_mem_distDispatch,
      distSet_RUETZ_mem_distDispatch, distSet_TIGHT_mem_distDispatch]

/-- C4: whenever the gate parameters are dispatched, the dispatched
bypass flag is 1 exactly when the dispatched threshold value is below
0.05; in particular a threshold of 0.04 yields bypass = 1 and a
threshold of 0.06 yields bypass = 0. -/
theorem C4_gate_bypass_cutoff (sat env : ℚ) (s : CallbackState)
    (inp : BlockInput) (eng : EngineResponse) :
    (∀ t b : ℚ,
      Event.ngSet NgParam.P_THRESHOLD t ∈ (AudioCallback true sat env s inp eng).trace →
      Event.ngSet NgParam.P_BYPASS b ∈ (AudioCallback true sat env s inp eng).trace →
      b = (if t < 1/20 then 1 else 0))
    ∧ Event.ngSet NgParam.P_THRESHOLD (1/25)
        ∈ (AudioCallback true sat env st004 sampleInp sampleEng).trace
    ∧ Event.ngSet NgParam.P_BYPASS 1
        ∈ (AudioCallback true sat env st004 sampleInp sampleEng).trace
    ∧ Event.ngSet NgParam.P_THRESHOLD (3/50)
        ∈ (AudioCallback true sat env st006 sampleInp sampleEng).trace
    ∧ Event.ngSet NgParam.P_BYPASS 0
        ∈ (AudioCallback true sat env st006 sampleInp sampleEng).trace := by
  constructor
  · intro t b ht hb
    simp only [AudioCallback] at ht hb
    cases hf : s.first <;> cases hp : inp.encoderPressed <;>
      simp [hf, hp, ctrlStep, ngDispatch, List.mem_append,
        ngSet_not_mem_distDispatch] at ht hb <;>
      simp [ht.symm ▸ hb]
  · refine ⟨?_, ?_, ?_, ?_⟩ <;>
      norm_num [AudioCallback, ctrlStep, ngDispatch, st004, st006, sampleInp,
        GrabValue.init, GrabValue.Lock, GrabValue.Get, List.mem_append]

/-- C6: on every processed block, if the resolved hard value is ≥ 0.5
then `dryWet` is set to 1 and `siLed` is set to the resolved mix value;
otherwise `dryWet` is set to the resolved mix value and no `siLed`
parameter is set during that block. -/
theorem C6_mix_routing (sat env : ℚ) (s : CallbackState)
    (inp : BlockInput) (eng : EngineResponse) :
    ((1 : ℚ)/2 ≤ (if inp.swClip = Switch3.POS_CENTER ∨ inp.gateActive = true then (1 : ℚ) else 0) →
      Event.distSet DistParam.P_DRYWET 1 ∈ (AudioCallback true sat env s inp eng).trace
      ∧ Event.distSet DistParam.P_SILED
          (fclamp (AudioCallback true sat env s inp eng).state.cv_mix.Get 0 1)
          ∈ (AudioCallback true sat env s inp eng).trace)
    ∧ ((if inp.swClip = Switch3.POS_CENTER ∨ inp.gateActive = true then (1 : ℚ) else 0) < 1/2 →
      Event.distSet DistParam.P_DRYWET
          (fclamp (AudioCallback true sat env s inp eng).state.cv_mix.Get 0 1)
          ∈ (AudioCallback true sat env s inp eng).trace
      ∧ ∀ v : ℚ, Event.distSet DistParam.P_SILED v
          ∉ (AudioCallback true sat env s inp eng).trace) := by
  by_cases hc : inp.swClip = Switch3.POS_CENTER ∨ inp.gateActive = true <;>
    cases hf : s.first <;> cases hp : inp.encoderPressed <;>
      norm_num [AudioCallback, ctrlStep, distDispatch, ngDispatch, hc, hf, hp,
        List.mem_append] <;>
      simp

/-- C7: on every processed block exactly one reconciled-control pair is
updated and the other locked: not shifted, knob0 updates the filter
control and knob1 the mix control while the threshold and release
controls are locked (and no other update/lock calls occur on them);
shifted, the roles are exactly swapped. -/
theorem C7_knob_multiplexer (sat env : ℚ) (s : CallbackState)
    (inp : BlockInput) (eng : EngineResponse) :
    ((AudioCallback true sat env s inp eng).shift = false →
      Event.ctrlUpdate CtrlId.cvFilter inp.knobTop
          ∈ (AudioCallback true sat env s inp eng).trace
      ∧ Event.ctrlUpdate CtrlId.cvMix inp.knobBottom
          ∈ (AudioCallback true sat env s inp eng).trace
      ∧ Event.ctrlLock CtrlId.ngThreshold ∈ (AudioCallback true sat env s inp eng).trace
      ∧ Event.ctrlLock CtrlId.ngRelease ∈ (AudioCallback true sat env s inp eng).trace
      ∧ (∀ v : ℚ, Event.ctrlUpdate CtrlId.ngThreshold v
          ∉ (AudioCallback true sat env s inp eng).trace)
      ∧ (∀ v : ℚ, Event.ctrlUpdate CtrlId.ngRelease v
          ∉ (AudioCallback true sat env s inp eng).trace)
      ∧ Event.ctrlLock CtrlId.cvFilter ∉ (AudioCallback true sat env s inp eng).trace
      ∧ Event.ctrlLock CtrlId.cvMix ∉ (AudioCallback true sat env s inp eng).trace
      ∧ (AudioCallback true sat env s inp eng).state.cv_filter = s.cv_filter.Update inp.knobTop
      ∧ (AudioCallback true sat env s inp eng).state.cv_mix = s.cv_mix.Update inp.knobBottom
      ∧ (AudioCallback true sat env s inp eng).state.ng_threshold = s.ng_threshold.Lock
      ∧ (AudioCallback true sat env s inp eng).state.ng_release = s.ng_release.Lock)
    ∧ ((AudioCallback true sat env s inp eng).shift = true →
      Event.ctrlUpdate CtrlId.ngThreshold inp.knobTop
          ∈ (AudioCallback true sat env s inp eng).trace
      ∧ Event.ctrlUpdate CtrlId.ngRelease inp.knobBottom
          ∈ (AudioCallback true sat env s inp eng).trace
      ∧ Event.ctrlLock CtrlId.cvFilter ∈ (AudioCallback true sat env s inp eng).trace
      ∧ Event.ctrlLock CtrlId.cvMix ∈ (AudioCallback true sat env s inp eng).trace
      ∧ (∀ v : ℚ, Event.ctrlUpdate CtrlId.cvFilter v
          ∉ (AudioCallback true sat env s inp eng).trace)
      ∧ (∀ v : ℚ, Event.ctrlUpdate CtrlId.cvMix v
          ∉ (AudioCallback true sat env s inp eng).trace)
      ∧ Event.ctrlLock CtrlId.ngThreshold ∉ (AudioCallback true sat env s inp eng).trace
      ∧ Event.ctrlLock CtrlId.ngRelease ∉ (AudioCallback true sat env s inp eng).trace
      ∧ (AudioCallback true sat env s inp eng).state.ng_threshold = s.ng_threshold.Update inp.knobTop
      ∧ (AudioCallback true sat env s inp eng).state.ng_release = s.ng_release.Update inp.knobBottom
      ∧ (AudioCallback true sat env s inp eng).state.cv_filter = s.cv_filter.Lock
      ∧ (AudioCallback true sat env s inp eng).state.cv_mix = s.cv_mix.Lock) := by
  cases hf : s.first <;> cases hp : inp.encoderPressed <;>
    simp [AudioCallback, ctrlStep, ngDispatch, hf, hp, List.mem_append,
      ctrlUpdate_not_mem_distDispatch, ctrlLock_not_mem_distDispatch]

/-- A run has one result per block. -/
lemma runAux_length (blocks : List (BlockInput × EngineResponse)) :
    ∀ (s : CallbackState) (sat env : ℚ),
      (runAux s sat env blocks).length = blocks.length := by
  induction blocks with
  | nil => intro s sat env; rfl
  | cons b rest ih =>
    intro s sat env
    cases b with
    | mk inp eng => simp [runAux, ih]

/-- In any run segment, block `i` calls `ng.Update()` exactly when it
is the segment's first block with the `first` flag still pending, or
its shift state is active. -/
lemma runAux_get_fires (blocks : List (BlockInput × EngineResponse)) :
    ∀ (s : CallbackState) (sat env : ℚ) (i : ℕ) (r : AudioResult),
      (runAux s sat env blocks).get? i = some r →
      decide (Event.ngUpdate ∈ r.trace) = ((s.first && i == 0) || r.shift) := by
  induction blocks with
  | nil => intro s sat env i r h; simp [runAux] at h
  | cons b rest ih =>
    intro s sat env i r h
    cases b with
    | mk inp eng =>
      cases i with
      | zero =>
        simp only [runAux, List.get?] at h
        cases h
        simpa using AudioCallback_fires sat env s inp eng
      | succ j =>
        simp only [runAux, List.get?] at h
        have hj := ih (AudioCallback true sat env s inp eng).state
          (AudioCallback true sat env s inp eng).satVal
          (AudioCallback true sat env s inp eng).envVal j r h
        rw [AudioCallback_first] at hj
        simpa using hj

/-- C1 (amended): in every post-boot run from the initial static state,
gate re-parameterization (the `ng.Update()` call) happens exactly on
the first processed block and on every block whose shift state is
active — not only on shift transitions. -/
theorem C1_gate_cadence_first_or_shift
    (blocks : List (BlockInput × EngineResponse)) (i : ℕ)
    (hi : i < (run blocks).length) :
    firesAt blocks i = true ↔ (i = 0 ∨ shiftAt blocks i = true) := by
  have hr := List.get?_eq_get hi
  have hfires := runAux_get_fires blocks CallbackState.init 0 0 i _ hr
  simp only [CallbackState.init, Bool.true_and] at hfires
  simp only [firesAt, shiftAt, hr, Option.elim]
  rw [hfires]
  simp

/-- C1 witness: the first processed block of a one-block run
re-parameterizes the gate. -/
theorem C1_gate_cadence_witness :
    0 < (run [(sampleInp, sampleEng)]).length
    ∧ (firesAt [(sampleInp, sampleEng)] 0 = true
        ↔ (0 = 0 ∨ shiftAt [(sampleInp, sampleEng)] 0 = true)) :=
  ⟨by simp [run, runAux],
   C1_gate_cadence_first_or_shift [(sampleInp, sampleEng)] 0 (by simp [run, runAux])⟩

/-- C1 counterexample: with the encoder held on blocks 1 and 2, block 2
has the same shift state as block 1 yet still re-parameterizes the
gate, so re-parameterization is not restricted to block 0 and
shift-state changes. -/
theorem C1_counterexample_consecutive_shift : ¬ gateCadenceClaim cadBlocks := by
  intro h
  have hlen : (run cadBlocks).length = 3 := by
    simp [run, cadBlocks, runAux_length]
  have h2 := h 2 (by rw [hlen]; norm_num)
  have hfi : firesAt cadBlocks 2 = true := by
    simp [firesAt, run, runAux, cadBlocks, AudioCallback_fires,
      AudioCallback_first, AudioCallback_shift, pressedInp, sampleInp]
  have hsh : shiftAt cadBlocks 2 = shiftAt cadBlocks 1 := by
    simp [shiftAt, run, runAux, cadBlocks, AudioCallback_first,
      AudioCallback_shift, pressedInp, sampleInp]
  rw [h2] at hfi
  rcases hfi with h0 | hne
  · exact absurd h0 (by norm_num)
  · exact hne (by rw [hsh])

/-- C3 (code evaluation at the failing input): a single encoder tick
(increment `1`, likewise `-1`) leaves the selected value unchanged —
`Increment() / 16` is C++ integer division, which truncates `±1/16`
to `0` — instead of moving it by `1/16`. -/
theorem C3_single_tick_is_noop :
    (AudioCallback true 0 0 CallbackState.init tickInp sampleEng).state.cur_gain = 1/2
    ∧ (AudioCallback true 0 0 steadyState tickPressedInp sampleEng).state.cur_level = 1/2
    ∧ cppDiv 1 16 = 0
    ∧ cppDiv (-1) 16 = 0 := by
  refine ⟨?_, ?_, by decide, by decide⟩ <;>
    norm_num [AudioCallback, CallbackState.init, steadyState, tickInp,
      tickPressedInp, fclamp, fmin, fmax, show cppDiv 1 16 = 0 from by decide]

/-- C8: the boot state machine is one-way and purely timer-driven (the
next `initialized` flag is exactly `old ∨ elapsed ≥ 1000 ms`); while
BLINKING the audio callback passes the input through verbatim with no
collaborator calls and no state change; once READY every status-loop
iteration renders the LEDs with channels `(0, envVal, 0)` and
`(satVal, 0, 0)`; concretely, from the start state the loop is still
BLINKING at 999 ms and READY at 1001 ms. -/
theorem C8_boot_state_machine :
    (∀ (b now : ℕ) (s : MainState) (sat env : ℚ),
      (MainLoopStep b now s sat env).1.inited
        = (s.inited || decide (1000 ≤ now - b)))
    ∧ (∀ (sat env : ℚ) (cs : CallbackState) (inp : BlockInput) (eng : EngineResponse),
      AudioCallback false sat env cs inp eng
        = ⟨cs, sat, env, inp.inL, inp.inR, false, []⟩)
    ∧ (∀ (b now : ℕ) (s : MainState) (sat env : ℚ), s.inited = true →
      (MainLoopStep b now s sat env).2
        = [Event.setLed LedId.LED_LEFT 0 env 0,
           Event.setLed LedId.LED_RIGHT sat 0 0, Event.updateLeds])
    ∧ bootState (MainLoopStep 0 999 MainState.start 0 0).1 = BootState.BLINKING
    ∧ bootState (MainLoopStep 0 1001 MainState.start 0 0).1 = BootState.READY := by
  refine ⟨?_, fun sat env cs inp eng => rfl, ?_, ?_, ?_⟩
  · intro b now s sat env
    unfold MainLoopStep
    rcases hi : s.inited
    · by_cases hlt : now - b < 1000
      · have hd : decide (1000 ≤ now - b) = false := decide_eq_false (Nat.not_le.mpr hlt)
        rcases hf : s.first <;> simp [hi, hlt, hd, hf]
      · have hd : decide (1000 ≤ now - b) = true := decide_eq_true (Nat.not_lt.mp hlt)
        simp [hi, hlt, hd]
    · simp [hi]
  · intro b now s sat env hs
    unfold MainLoopStep
    simp [hs]
  · simp [MainLoopStep, MainState.start, bootState]
  · simp [MainLoopStep, MainState.start, bootState]

/-- C4 witness: on a default first block the dispatched threshold 0.4
comes with bypass 0, matching the cutoff rule. -/
theorem C4_gate_bypass_cutoff_witness :
    Event.ngSet NgParam.P_THRESHOLD (2/5)
      ∈ (AudioCallback true 0 0 CallbackState.init sampleInp sampleEng).trace
    ∧ Event.ngSet NgParam.P_BYPASS 0
      ∈ (AudioCallback true 0 0 CallbackState.init sampleInp sampleEng).trace
    ∧ (0 : ℚ) = (if (2 : ℚ)/5 < 1/20 then 1 else 0) := by
  have ht : Event.ngSet NgParam.P_THRESHOLD (2/5)
      ∈ (AudioCallback true 0 0 CallbackState.init sampleInp sampleEng).trace := by
    norm_num [AudioCallback, ctrlStep, ngDispatch, CallbackState.init, sampleInp,
      GrabValue.init, GrabValue.Lock, GrabValue.Get, List.mem_append]
  have hb : Event.ngSet NgParam.P_BYPASS 0
      ∈ (AudioCallback true 0 0 CallbackState.init sampleInp sampleEng).trace := by
    norm_num [AudioCallback, ctrlStep, ngDispatch, CallbackState.init, sampleInp,
      GrabValue.init, GrabValue.Lock, GrabValue.Get, List.mem_append]
  exact ⟨ht, hb,
    (C4_gate_bypass_cutoff 0 0 CallbackState.init sampleInp sampleEng).1 (2/5) 0 ht hb⟩

/-- C6 witness: with the clip switch center (hard mode) `dryWet` is
forced to 1; with neutral switches no `siLed` parameter is set. -/
theorem C6_mix_routing_witness :
    Event.distSet DistParam.P_DRYWET 1
      ∈ (AudioCallback true 0 0 CallbackState.init centerInp sampleEng).trace
    ∧ Event.distSet DistParam.P_SILED 1
      ∉ (AudioCallback true 0 0 CallbackState.init sampleInp sampleEng).trace :=
  ⟨((C6_mix_routing 0 0 CallbackState.init centerInp sampleEng).1
      (by norm_num [centerInp])).1,
   ((C6_mix_routing 0 0 CallbackState.init sampleInp sampleEng).2
      (by simp [sampleInp])).2 1⟩

/-- C7 witness: a non-shifted block updates the filter control from
knob0, a shifted block updates the threshold control from knob0. -/
theorem C7_knob_multiplexer_witness :
    Event.ctrlUpdate CtrlId.cvFilter sampleInp.knobTop
      ∈ (AudioCallback true 0 0 steadyState sampleInp sampleEng).trace
    ∧ Event.ctrlUpdate CtrlId.ngThreshold pressedInp.knobTop
      ∈ (AudioCallback true 0 0 steadyState pressedInp sampleEng).trace :=
  ⟨((C7_knob_multiplexer 0 0 steadyState sampleInp sampleEng).1
      (by simp [AudioCallback_shift, sampleInp])).1,
   ((C7_knob_multiplexer 0 0 steadyState pressedInp sampleEng).2
      (by simp [AudioCallback_shift, pressedInp, steadyState])).1⟩

/-- C8 witness: a READY iteration renders the envelope and saturation
LED channels. -/
theorem C8_boot_state_machine_witness :
    (MainLoopStep 0 1002 ⟨true, true⟩ (1/4) (3/4)).2
      = [Event.setLed LedId.LED_LEFT 0 (3/4) 0,
         Event.setLed LedId.LED_RIGHT (1/4) 0 0, Event.updateLeds] :=
  C8_boot_state_machine.2.2.1 0 1002 ⟨true, true⟩ (1/4) (3/4) rfl

end Prat
